import Mathlib

/-!
Verification of the real-time greenhouse dashboard relay server of this
repository (the Express + Socket.io + MQTT server file).

The JavaScript runtime state is embedded shallowly: JavaScript objects
become insertion-ordered association lists of string keys and values
(`JObj`, matching the order `Object.keys` exposes for non-index string
keys); the mutable `dashboardData` global becomes the `Dashboard`
structure; and every MQTT, HTTP and socket handler becomes a pure
state-transition function, with the millisecond clock (`Date.now()` and
`new Date()`) passed in explicitly as a natural number.  A decoded MQTT
payload is modelled as a structured record (`JObj`); a payload whose
decoding fails is modelled as `none`.
-/

/-- A JavaScript runtime value: what `JSON.parse` can produce, plus the
`Date` objects the server itself creates (kept abstract as their
millisecond value). -/
inductive Value where
  | vnull : Value
  | vbool : Bool → Value
  | vnum : Int → Value
  | vstr : String → Value
  | vtime : Nat → Value
  | varr : List Value → Value
  | vobj : List (String × Value) → Value

/-- A JavaScript object: an insertion-ordered association list of
string keys to values. -/
abbrev JObj := List (String × Value)

/-- Property read `o[k]`: the value at the binding of `k`, or `none`
for the JavaScript `undefined`. -/
def jget : JObj → String → Option Value
  | [], _ => none
  | kv :: rest, k => if kv.1 = k then some kv.2 else jget rest k

/-- Property write `o[k] = v`: JavaScript replaces the value in place
when the key is already present (the key keeps its original position)
and appends a new binding otherwise. -/
def objSet : JObj → String → Value → JObj
  | [], k, v => [(k, v)]
  | kv :: rest, k, v => if kv.1 = k then (k, v) :: rest else kv :: objSet rest k v

/-- Property deletion `delete o[k]`. -/
def objDelete : JObj → String → JObj
  | [], _ => []
  | kv :: rest, k => if kv.1 = k then rest else kv :: objDelete rest k

/-- Keys in insertion order, as `Object.keys` returns them for
non-index string keys. -/
def objKeys (o : JObj) : List String := o.map (fun kv => kv.1)

/-- Spread update `{ ...o, ...fields }`: each field of `fields` is
assigned into `o` from left to right. -/
def objMerge (o : JObj) (fields : JObj) : JObj :=
  fields.foldl (fun acc kv => objSet acc kv.1 kv.2) o

/-- An object literal: every field is assigned left to right into a
fresh empty object, so a later duplicate key overwrites an earlier one
(which is exactly how `{ id: ..., ...data, timestamp: ... }`
evaluates). -/
def objLit (fields : JObj) : JObj := objMerge [] fields

/-- The `dashboardData.statistics` record. -/
structure Stats where
  totalAlerts : Nat
  criticalAlerts : Nat
  anomaliesDetected : Nat
deriving DecidableEq

/-- The in-memory `dashboardData` global. -/
structure Dashboard where
  sensors : JObj
  alerts : List JObj
  predictions : JObj
  systemStatus : JObj
  statistics : Stats

/-- One `{ status: "online", lastUpdate: new Date() }` entry of the
initial `systemStatus`. -/
def onlineStatus (t : Nat) : Value :=
  Value.vobj [("status", Value.vstr "online"), ("lastUpdate", Value.vtime t)]

/-- The initial `dashboardData` value, built at process start time
`t0`. -/
def initialDashboard (t0 : Nat) : Dashboard where
  sensors := []
  alerts := []
  predictions := []
  systemStatus :=
    [("layer1", onlineStatus t0), ("layer2", onlineStatus t0), ("layer5", onlineStatus t0)]
  statistics := { totalAlerts := 0, criticalAlerts := 0, anomaliesDetected := 0 }

/-- The key `sensor_` + `Date.now()` assigned by `handleSensorData`. -/
def sensorId (t : Nat) : String := "sensor_" ++ toString t

/-- The stored sensor record
`{ ...data, timestamp: new Date(), status: "active" }`. -/
def sensorRecord (data : JObj) (t : Nat) : JObj :=
  objLit (data ++ [("timestamp", Value.vtime t), ("status", Value.vstr "active")])

/-- The handler `handleSensorData`: store the record under the
clock-derived key, then, when more than 100 keys remain, delete the
entry at the first (oldest-inserted) key. -/
def handleSensorData (data : JObj) (t : Nat) (d : Dashboard) : Dashboard :=
  let sensors1 := objSet d.sensors (sensorId t) (Value.vobj (sensorRecord data t))
  let sensors2 :=
    if 100 < (objKeys sensors1).length then
      match (objKeys sensors1).head? with
      | some k => objDelete sensors1 k
      | none => sensors1
    else sensors1
  { d with sensors := sensors2 }

/-- The id `alert_` + `Date.now()` assigned by
`handleEmergencyAlert`. -/
def alertId (t : Nat) : String := "alert_" ++ toString t

/-- The alert object
`{ id: ..., ...data, timestamp: new Date(), acknowledged: false }`
built by `handleEmergencyAlert`: note that a payload field named `id`
would overwrite the assigned id, while the trailing `timestamp` and
`acknowledged` fields overwrite any payload fields of those names. -/
def mkAlert (data : JObj) (t : Nat) : JObj :=
  objLit (("id", Value.vstr (alertId t)) ::
    (data ++ [("timestamp", Value.vtime t), ("acknowledged", Value.vbool false)]))

/-- The test `data.severity === "CRITICAL"`. -/
def isCriticalPayload (data : JObj) : Bool :=
  match jget data "severity" with
  | some (Value.vstr s) => s == "CRITICAL"
  | _ => false

/-- The handler `handleEmergencyAlert`: build the alert, unshift it,
bump `totalAlerts`, bump `criticalAlerts` on a critical severity, then
truncate the list to its newest 50 entries when it exceeds 50.  Also
returns the alert object that the handler broadcasts as `newAlert`. -/
def handleEmergencyAlert (data : JObj) (t : Nat) (d : Dashboard) : Dashboard × JObj :=
  let alert := mkAlert data t
  let alerts1 := alert :: d.alerts
  let stats1 := { d.statistics with totalAlerts := d.statistics.totalAlerts + 1 }
  let stats2 :=
    if isCriticalPayload data then
      { stats1 with criticalAlerts := stats1.criticalAlerts + 1 }
    else stats1
  let alerts2 := if 50 < alerts1.length then alerts1.take 50 else alerts1
  ({ d with alerts := alerts2, statistics := stats2 }, alert)

/-- The handler `handlePredictionData`: replace the whole prediction
snapshot with `{ ...data, timestamp: new Date() }`. -/
def handlePredictionData (data : JObj) (t : Nat) (d : Dashboard) : Dashboard :=
  { d with predictions := objLit (data ++ [("timestamp", Value.vtime t)]) }

/-- The handler `handleAnomalyData`: only bumps the
`anomaliesDetected` counter. -/
def handleAnomalyData (d : Dashboard) : Dashboard :=
  { d with statistics :=
      { d.statistics with anomaliesDetected := d.statistics.anomaliesDetected + 1 } }

/-- The four MQTT topics the server subscribes to. -/
inductive Topic where
  | sensoresRaw
  | alertasEmergentes
  | predicciones
  | anomalias
deriving DecidableEq

/-- The topic strings, used in the error log line. -/
def topicName : Topic → String
  | Topic.sensoresRaw => "invernadero/sensores/raw"
  | Topic.alertasEmergentes => "invernadero/alertas/emergentes"
  | Topic.predicciones => "invernadero/predicciones"
  | Topic.anomalias => "invernadero/anomalias"

/-- A Socket.io event emitted (`io.emit`) to every connected client. -/
inductive Event where
  | dataUpdate : Topic → JObj → Nat → Event
  | newAlert : JObj → Event
  | alertAcknowledged : String → Event

/-- The `mqttClient.on message` handler.  A payload of `none` models a
message whose `JSON.parse` throws: the catch block only logs, so the
state is untouched and nothing is emitted.  On a successful decode the
topic switch dispatches to exactly one handler and then one
`dataUpdate` is emitted for every topic; the alert handler emits its
`newAlert` before the switch returns.  The result is the new state, the
events broadcast to all clients, and the console error log lines. -/
def onMessage (topic : Topic) (payload : Option JObj) (t : Nat) (d : Dashboard) :
    Dashboard × List Event × List String :=
  match payload with
  | none => (d, [], ["Error processing MQTT message from " ++ topicName topic])
  | some data =>
    match topic with
    | Topic.sensoresRaw =>
      (handleSensorData data t d, [Event.dataUpdate topic data t], [])
    | Topic.alertasEmergentes =>
      let r := handleEmergencyAlert data t d
      (r.1, [Event.newAlert r.2, Event.dataUpdate topic data t], [])
    | Topic.predicciones =>
      (handlePredictionData data t d, [Event.dataUpdate topic data t], [])
    | Topic.anomalias =>
      (handleAnomalyData d, [Event.dataUpdate topic data t], [])

/-- The predicate `a => a.id === alertId` passed to `alerts.find`. -/
def ackMatches (aid : String) (a : JObj) : Bool :=
  match jget a "id" with
  | some (Value.vstr s) => s == aid
  | _ => false

/-- JavaScript `alerts.find(a => a.id === alertId)` followed by an
in-place mutation of the found element by `f`: the result is the list
with the first matching element replaced, together with the updated
element, or `none` when no element matches. -/
def ackFirst (f : JObj → JObj) (aid : String) : List JObj → Option (List JObj × JObj)
  | [] => none
  | a :: rest =>
    if ackMatches aid a then some (f a :: rest, f a)
    else (ackFirst f aid rest).map (fun p => (a :: p.1, p.2))

/-- The mutation of the HTTP acknowledge route:
`alert.acknowledged = true; alert.acknowledgedAt = new Date()`. -/
def httpAckUpdate (t : Nat) (a : JObj) : JObj :=
  objSet (objSet a "acknowledged" (Value.vbool true)) "acknowledgedAt" (Value.vtime t)

/-- The response of the POST acknowledge route: 200 with the updated
alert, or a 404 error body. -/
inductive AckResponse where
  | success : JObj → AckResponse
  | notFound : AckResponse

/-- The POST acknowledge-by-id route: find the alert by id; on a hit
mutate it in place and answer success with the updated alert; on a
miss answer 404 and touch nothing. -/
def httpAcknowledge (aid : String) (t : Nat) (d : Dashboard) : Dashboard × AckResponse :=
  match ackFirst (httpAckUpdate t) aid d.alerts with
  | none => (d, AckResponse.notFound)
  | some (l, a) => ({ d with alerts := l }, AckResponse.success a)

/-- The mutation of the socket `acknowledgeAlert` handler: only
`alert.acknowledged = true`; no timestamp is recorded. -/
def socketAckUpdate (a : JObj) : JObj :=
  objSet a "acknowledged" (Value.vbool true)

/-- The socket `acknowledgeAlert` handler: on a hit mutate the alert in
place and broadcast `alertAcknowledged` carrying only the id to every
client; on a miss do nothing at all (no state change, no emit, no
error). -/
def socketAcknowledge (aid : String) (d : Dashboard) : Dashboard × List Event :=
  match ackFirst socketAckUpdate aid d.alerts with
  | none => (d, [])
  | some p => ({ d with alerts := p.1 }, [Event.alertAcknowledged aid])

/-- One externally-triggered operation on the server state.  The
read-only interactions (client connect with `initialData`,
`requestData`, the GET routes) never write `dashboardData` and are
collapsed into `readOp`. -/
inductive Op where
  | msg : Topic → Option JObj → Nat → Op
  | httpAck : String → Nat → Op
  | socketAck : String → Op
  | readOp : Op

/-- The state transition of one operation. -/
def applyOp : Op → Dashboard → Dashboard
  | Op.msg topic payload t, d => (onMessage topic payload t d).1
  | Op.httpAck aid t, d => (httpAcknowledge aid t d).1
  | Op.socketAck aid, d => (socketAcknowledge aid d).1
  | Op.readOp, d => d

/-- Run a sequence of operations from a starting state. -/
def runOps (ops : List Op) (d : Dashboard) : Dashboard :=
  ops.foldl (fun s op => applyOp op s) d

/-! Basic algebra of the JavaScript object embedding. -/

theorem jget_objSet_self (o : JObj) (k : String) (v : Value) :
    jget (objSet o k v) k = some v := by
  induction o with
  | nil => simp [objSet, jget]
  | cons kv rest ih =>
    by_cases h : kv.1 = k
    · simp [objSet, h, jget]
    · simp [objSet, h, jget, ih]

theorem jget_objSet_ne (o : JObj) (k k' : String) (v : Value) (h : k' ≠ k) :
    jget (objSet o k v) k' = jget o k' := by
  induction o with
  | nil => simp [objSet, jget, Ne.symm h]
  | cons kv rest ih =>
    by_cases hk : kv.1 = k
    · subst hk
      simp [objSet, jget, Ne.symm h]
    · by_cases hk' : kv.1 = k'
      · simp [objSet, jget, hk, hk', h]
      · simp [objSet, jget, hk, hk', ih]

theorem jget_eq_none_iff (o : JObj) (k : String) :
    jget o k = none ↔ ∀ kv ∈ o, kv.1 ≠ k := by
  induction o with
  | nil => simp [jget]
  | cons kv rest ih =>
    by_cases h : kv.1 = k
    · simp [jget, h]
    · simp [jget, h, ih]

theorem objSet_of_fresh (o : JObj) (k : String) (v : Value) (h : jget o k = none) :
    objSet o k v = o ++ [(k, v)] := by
  induction o with
  | nil => simp [objSet]
  | cons kv rest ih =>
    rw [jget_eq_none_iff] at h
    have h1 : kv.1 ≠ k := h kv (by simp)
    have h2 : jget rest k = none := by
      rw [jget_eq_none_iff]
      intro kv' hkv'
      exact h kv' (by simp [hkv'])
    simp [objSet, h1, ih h2]

theorem objSet_objSet_self (o : JObj) (k : String) (v1 v2 : Value) :
    objSet (objSet o k v1) k v2 = objSet o k v2 := by
  induction o with
  | nil => simp [objSet]
  | cons kv rest ih =>
    by_cases h : kv.1 = k
    · simp [objSet, h]
    · simp [objSet, h, ih]

theorem objSet_self_of_jget (o : JObj) (k : String) (v : Value) (h : jget o k = some v) :
    objSet o k v = o := by
  induction o with
  | nil => simp [jget] at h
  | cons kv rest ih =>
    obtain ⟨k1, v1⟩ := kv
    by_cases hk : k1 = k
    · subst hk
      simp [jget] at h
      simp [objSet, h]
    · simp [jget, hk] at h
      simp [objSet, hk, ih h]

theorem length_objSet_of_fresh (o : JObj) (k : String) (v : Value) (h : jget o k = none) :
    (objSet o k v).length = o.length + 1 := by
  rw [objSet_of_fresh o k v h]
  simp

theorem length_objSet_of_jget (o : JObj) (k : String) (v w : Value) (h : jget o k = some w) :
    (objSet o k v).length = o.length := by
  induction o with
  | nil => simp [jget] at h
  | cons kv rest ih =>
    by_cases hk : kv.1 = k
    · simp [objSet, hk]
    · simp [jget, hk] at h
      simp [objSet, hk, ih h]

theorem jget_eq_none_of_not_mem (o : JObj) (k : String) (h : k ∉ o.map Prod.fst) :
    jget o k = none := by
  rw [jget_eq_none_iff]
  intro kv hkv heq
  exact h (heq ▸ List.mem_map_of_mem Prod.fst hkv)

/-! The sensor collection: FIFO eviction at 100 entries. -/

/-- The key-value pair a sensor ingestion at time `p.2` with payload
`p.1` stores into the sensors object. -/
def sensorEntry (p : JObj × Nat) : String × Value :=
  (sensorId p.2, Value.vobj (sensorRecord p.1 p.2))

/-- Ingest a whole sequence of sensor readings, each given as payload
and arrival time. -/
def runSensorData (L : List (JObj × Nat)) (d : Dashboard) : Dashboard :=
  L.foldl (fun s p => handleSensorData p.1 p.2 s) d

theorem handleSensorData_sensors_push (data : JObj) (t : Nat) (d : Dashboard)
    (h : jget d.sensors (sensorId t) = none) (hlen : d.sensors.length ≤ 99) :
    (handleSensorData data t d).sensors =
      d.sensors ++ [(sensorId t, Value.vobj (sensorRecord data t))] := by
  simp only [handleSensorData]
  rw [objSet_of_fresh _ _ _ h]
  have hnot : ¬ 100 <
      (objKeys (d.sensors ++ [(sensorId t, Value.vobj (sensorRecord data t))])).length := by
    simp only [objKeys, List.length_map, List.length_append, List.length_singleton, List.length_nil]
    omega
  rw [if_neg hnot]

theorem handleSensorData_sensors_evict (data : JObj) (t : Nat) (d : Dashboard)
    (h : jget d.sensors (sensorId t) = none) (hlen : d.sensors.length = 100) :
    (handleSensorData data t d).sensors =
      d.sensors.tail ++ [(sensorId t, Value.vobj (sensorRecord data t))] := by
  obtain ⟨a, rest, hs⟩ : ∃ a rest, d.sensors = a :: rest := by
    cases hsens : d.sensors with
    | nil => rw [hsens] at hlen; simp at hlen
    | cons a rest => exact ⟨a, rest, rfl⟩
  simp only [handleSensorData]
  rw [hs] at h hlen ⊢
  simp only [List.length_cons] at hlen
  rw [objSet_of_fresh _ _ _ h]
  have hgt : 100 <
      (objKeys ((a :: rest) ++ [(sensorId t, Value.vobj (sensorRecord data t))])).length := by
    simp only [objKeys, List.length_map, List.length_append, List.length_cons,
      List.length_singleton, List.length_nil]
    omega
  rw [if_pos hgt]
  simp [objKeys, objDelete]

theorem runSensorData_cons (p : JObj × Nat) (L : List (JObj × Nat)) (d : Dashboard) :
    runSensorData (p :: L) d = runSensorData L (handleSensorData p.1 p.2 d) := rfl

theorem runSensorData_sensors (L : List (JObj × Nat)) :
    ∀ (E : List (String × Value)) (d : Dashboard),
    d.sensors = E.drop (E.length - 100) →
    ((E ++ L.map sensorEntry).map Prod.fst).Nodup →
    (runSensorData L d).sensors =
      (E ++ L.map sensorEntry).drop ((E ++ L.map sensorEntry).length - 100) := by
  induction L with
  | nil =>
    intro E d hsens _
    simpa [runSensorData] using hsens
  | cons p L ih =>
    intro E d hsens hnodup
    have hnodup' : (E.map Prod.fst ++ sensorId p.2 :: (L.map sensorEntry).map Prod.fst).Nodup := by
      simpa [sensorEntry] using hnodup
    have hkey : sensorId p.2 ∉ E.map Prod.fst := by
      intro hmem
      obtain ⟨-, -, hdisj⟩ := List.nodup_append.mp hnodup'
      exact hdisj hmem (List.mem_cons_self _ _)
    have hfresh : jget d.sensors (sensorId p.2) = none := by
      apply jget_eq_none_of_not_mem
      intro hmem
      rw [hsens, List.map_drop] at hmem
      exact hkey (List.mem_of_mem_drop hmem)
    rw [runSensorData_cons]
    have hassoc : (E ++ [sensorEntry p]) ++ L.map sensorEntry
        = E ++ (p :: L).map sensorEntry := by
      simp
    by_cases hE : E.length ≤ 99
    · have hdrop0 : E.length - 100 = 0 := by omega
      have hsensE : d.sensors = E := by rw [hsens, hdrop0, List.drop_zero]
      have hdlen : d.sensors.length ≤ 99 := by rw [hsensE]; exact hE
      have hstep := handleSensorData_sensors_push p.1 p.2 d hfresh hdlen
      have happ := ih (E ++ [sensorEntry p]) (handleSensorData p.1 p.2 d)
        (by
          rw [hstep, hsensE]
          have : (E ++ [sensorEntry p]).length - 100 = 0 := by
            simp only [List.length_append, List.length_singleton]
            omega
          rw [this, List.drop_zero]
          simp [sensorEntry])
        (by rw [hassoc]; exact hnodup)
      rw [happ, hassoc]
    · have hge : 100 ≤ E.length := by omega
      have hdlen : d.sensors.length = 100 := by
        rw [hsens, List.length_drop]
        omega
      have hstep := handleSensorData_sensors_evict p.1 p.2 d hfresh hdlen
      have happ := ih (E ++ [sensorEntry p]) (handleSensorData p.1 p.2 d)
        (by
          rw [hstep, hsens, List.tail_drop]
          have h1 : (E ++ [sensorEntry p]).length - 100 = (E.length - 100) + 1 := by
            simp only [List.length_append, List.length_singleton]
            omega
          have h2 : (E.length - 100) + 1 ≤ E.length := by omega
          rw [h1, List.drop_append_of_le_length h2]
          simp [sensorEntry])
        (by rw [hassoc]; exact hnodup)
      rw [happ, hassoc]

/-- Claim C1.  For every sequence of sensor readings ingested at
pairwise-distinct clock values (so that the clock-derived keys are
pairwise distinct), the stored sensor collection is exactly the most
recent 100 entries in insertion order: it never holds more than 100
entries, an ingestion beyond 100 evicts exactly the oldest-inserted
entry, and every reading older than the newest 100 reads back as
absent (in particular, after R1..R101 the stored entries are exactly
those of R2..R101 and the key of R1 is gone). -/
theorem sensor_store_fifo_bounded (t0 : Nat) (L : List (JObj × Nat))
    (hids : (L.map (fun p => sensorId p.2)).Nodup) :
    (runSensorData L (initialDashboard t0)).sensors
        = (L.map sensorEntry).drop (L.length - 100)
    ∧ (runSensorData L (initialDashboard t0)).sensors.length ≤ 100
    ∧ (∀ p ∈ L.take (L.length - 100),
        jget (runSensorData L (initialDashboard t0)).sensors (sensorId p.2) = none) := by
  have hids' : ((([] : List (String × Value)) ++ L.map sensorEntry).map Prod.fst).Nodup := by
    simpa [List.map_map, sensorEntry, Function.comp] using hids
  have hmain := runSensorData_sensors L [] (initialDashboard t0) (by simp [initialDashboard]) hids'
  simp only [List.nil_append, List.length_map] at hmain
  refine ⟨hmain, ?_, ?_⟩
  · rw [hmain, List.length_drop, List.length_map]
    omega
  · intro p hp
    apply jget_eq_none_of_not_mem
    rw [hmain, List.map_drop, List.map_map]
    have hfn : (Prod.fst ∘ sensorEntry) = fun p : JObj × Nat => sensorId p.2 := by
      funext q
      simp [sensorEntry]
    rw [hfn]
    have htake : sensorId p.2 ∈ (L.map (fun p : JObj × Nat => sensorId p.2)).take (L.length - 100) := by
      rw [← List.map_take]
      exact List.mem_map_of_mem _ hp
    have hdisj := List.disjoint_take_drop (l := L.map (fun p : JObj × Nat => sensorId p.2))
      hids (le_refl (L.length - 100))
    exact fun hmem => hdisj htake hmem

/-- Witness for C1 at a concrete two-reading input. -/
theorem sensor_store_fifo_bounded_witness :
    (([(([] : JObj), 1), (([] : JObj), 2)].map (fun p => sensorId p.2)).Nodup)
    ∧ (runSensorData [(([] : JObj), 1), (([] : JObj), 2)] (initialDashboard 0)).sensors.length ≤ 100 :=
  ⟨by decide, (sensor_store_fifo_bounded 0 [(([] : JObj), 1), (([] : JObj), 2)] (by decide)).2.1⟩

/-! The alert list: prepend, truncate to 50, statistics counters. -/

/-- Ingest a whole sequence of emergency alerts, each given as payload
and arrival time. -/
def runAlerts (L : List (JObj × Nat)) (d : Dashboard) : Dashboard :=
  L.foldl (fun s p => (handleEmergencyAlert p.1 p.2 s).1) d

theorem runAlerts_cons (p : JObj × Nat) (L : List (JObj × Nat)) (d : Dashboard) :
    runAlerts (p :: L) d = runAlerts L (handleEmergencyAlert p.1 p.2 d).1 := rfl

theorem handleEmergencyAlert_alerts (data : JObj) (t : Nat) (d : Dashboard)
    (h : d.alerts.length ≤ 50) :
    (handleEmergencyAlert data t d).1.alerts = (mkAlert data t :: d.alerts).take 50 := by
  simp only [handleEmergencyAlert]
  by_cases h5 : 50 < (mkAlert data t :: d.alerts).length
  · by_cases hc : isCriticalPayload data <;> simp [h5, hc]
  · have heq : (mkAlert data t :: d.alerts).take 50 = mkAlert data t :: d.alerts :=
      List.take_of_length_le (by omega)
    by_cases hc : isCriticalPayload data <;> simp [h5, hc, heq]

theorem handleEmergencyAlert_totalAlerts (data : JObj) (t : Nat) (d : Dashboard) :
    (handleEmergencyAlert data t d).1.statistics.totalAlerts
      = d.statistics.totalAlerts + 1 := by
  simp only [handleEmergencyAlert]
  by_cases hc : isCriticalPayload data <;>
    by_cases h5 : 50 < (mkAlert data t :: d.alerts).length <;> simp [hc, h5]

theorem handleEmergencyAlert_criticalAlerts (data : JObj) (t : Nat) (d : Dashboard) :
    (handleEmergencyAlert data t d).1.statistics.criticalAlerts
      = d.statistics.criticalAlerts + (if isCriticalPayload data then 1 else 0) := by
  simp only [handleEmergencyAlert]
  by_cases hc : isCriticalPayload data <;>
    by_cases h5 : 50 < (mkAlert data t :: d.alerts).length <;> simp [hc, h5]

theorem handleEmergencyAlert_anomalies (data : JObj) (t : Nat) (d : Dashboard) :
    (handleEmergencyAlert data t d).1.statistics.anomaliesDetected
      = d.statistics.anomaliesDetected := by
  simp only [handleEmergencyAlert]
  by_cases hc : isCriticalPayload data <;>
    by_cases h5 : 50 < (mkAlert data t :: d.alerts).length <;> simp [hc, h5]

theorem take_append_take (n : Nat) (X Y : List α) :
    (X ++ Y.take n).take n = (X ++ Y).take n := by
  rw [List.take_append_eq_append_take, List.take_append_eq_append_take, List.take_take]
  have hmin : min (n - X.length) n = n - X.length :=
    Nat.min_eq_left (Nat.sub_le n X.length)
  rw [hmin]

theorem runAlerts_spec (L : List (JObj × Nat)) :
    ∀ d : Dashboard, d.alerts.length ≤ 50 →
    (runAlerts L d).alerts
        = ((L.map (fun p => mkAlert p.1 p.2)).reverse ++ d.alerts).take 50
    ∧ (runAlerts L d).statistics.totalAlerts = d.statistics.totalAlerts + L.length
    ∧ (runAlerts L d).statistics.criticalAlerts
        = d.statistics.criticalAlerts + (L.filter (fun p => isCriticalPayload p.1)).length := by
  induction L with
  | nil =>
    intro d h
    refine ⟨?_, by simp [runAlerts], by simp [runAlerts]⟩
    simp [runAlerts, List.take_of_length_le h]
  | cons p L ih =>
    intro d h
    rw [runAlerts_cons]
    have hstep := handleEmergencyAlert_alerts p.1 p.2 d h
    have hlen1 : (handleEmergencyAlert p.1 p.2 d).1.alerts.length ≤ 50 := by
      rw [hstep, List.length_take]
      omega
    obtain ⟨h1, h2, h3⟩ := ih _ hlen1
    refine ⟨?_, ?_, ?_⟩
    · rw [h1, hstep, take_append_take]
      simp [List.append_assoc]
    · rw [h2, handleEmergencyAlert_totalAlerts]
      simp only [List.length_cons]
      omega
    · rw [h3, handleEmergencyAlert_criticalAlerts]
      rw [List.filter_cons]
      by_cases hc : isCriticalPayload p.1 <;> simp [hc] <;> omega

/-- Claim C2.  From process start, after any sequence of ingested
alerts the stored alert list is exactly the newest 50 alert records in
newest-first order (each ingestion prepends; beyond 50 the oldest are
dropped), so it never exceeds 50 entries, while `totalAlerts` counts
every ingestion event including the ones whose record was since
truncated away. -/
theorem alert_list_bounded_newest_first (t0 : Nat) (L : List (JObj × Nat)) :
    (runAlerts L (initialDashboard t0)).alerts
        = ((L.map (fun p => mkAlert p.1 p.2)).reverse).take 50
    ∧ (runAlerts L (initialDashboard t0)).alerts.length ≤ 50
    ∧ (runAlerts L (initialDashboard t0)).statistics.totalAlerts = L.length := by
  obtain ⟨h1, h2, -⟩ := runAlerts_spec L (initialDashboard t0) (by simp [initialDashboard])
  have h1' : (runAlerts L (initialDashboard t0)).alerts
      = ((L.map (fun p => mkAlert p.1 p.2)).reverse).take 50 := by
    simpa [initialDashboard] using h1
  refine ⟨h1', ?_, by simpa [initialDashboard] using h2⟩
  rw [h1', List.length_take]
  omega

/-! The acknowledgment machinery shared by the HTTP route and the
socket handler. -/

theorem ackFirst_eq_none_iff (f : JObj → JObj) (aid : String) (l : List JObj) :
    ackFirst f aid l = none ↔ ∀ a ∈ l, ackMatches aid a = false := by
  induction l with
  | nil => simp [ackFirst]
  | cons x rest ih =>
    by_cases hx : ackMatches aid x
    · simp [ackFirst, hx]
    · simp [ackFirst, hx, ih]

theorem ackFirst_append_first_match (f : JObj → JObj) (aid : String)
    (pre : List JObj) (x : JObj) (post : List JObj)
    (hpre : ∀ b ∈ pre, ackMatches aid b = false) (hx : ackMatches aid x = true) :
    ackFirst f aid (pre ++ x :: post) = some (pre ++ f x :: post, f x) := by
  induction pre with
  | nil => simp [ackFirst, hx]
  | cons b pre ih =>
    have hb : ackMatches aid b = false := hpre b (by simp)
    have hrest : ∀ c ∈ pre, ackMatches aid c = false := fun c hc => hpre c (by simp [hc])
    simp [ackFirst, hb, ih hrest]

theorem ackFirst_cons_pos (f : JObj → JObj) (aid : String) (y : JObj) (rest : List JObj)
    (hy : ackMatches aid y = true) :
    ackFirst f aid (y :: rest) = some (f y :: rest, f y) := by
  simp [ackFirst, hy]

theorem ackFirst_cons_neg (f : JObj → JObj) (aid : String) (y : JObj) (rest : List JObj)
    (hy : ackMatches aid y = false) :
    ackFirst f aid (y :: rest)
      = (ackFirst f aid rest).map (fun p => (y :: p.1, p.2)) := by
  simp [ackFirst, hy]

theorem ackFirst_eq_some (f : JObj → JObj) (aid : String) (l : List JObj) :
    ∀ (l' : List JObj) (a' : JObj), ackFirst f aid l = some (l', a') →
    ∃ pre x post, l = pre ++ x :: post ∧ ackMatches aid x = true ∧
      (∀ b ∈ pre, ackMatches aid b = false) ∧
      l' = pre ++ f x :: post ∧ a' = f x := by
  induction l with
  | nil => intro l' a' h; simp [ackFirst] at h
  | cons y rest ih =>
    intro l' a' h
    by_cases hy : ackMatches aid y
    · rw [ackFirst_cons_pos f aid y rest hy] at h
      injection h with h
      rw [Prod.mk.injEq] at h
      exact ⟨[], y, rest, by simp, hy, by simp, h.1.symm, h.2.symm⟩
    · rw [ackFirst_cons_neg f aid y rest (by simpa using hy)] at h
      cases hrec : ackFirst f aid rest with
      | none => rw [hrec] at h; simp at h
      | some p =>
        rw [hrec] at h
        simp only [Option.map_some'] at h
        injection h with h
        rw [Prod.mk.injEq] at h
        obtain ⟨pre, x, post, hl, hx, hpre, hl0, ha0⟩ := ih p.1 p.2 hrec
        refine ⟨y :: pre, x, post, by simp [hl], hx, ?_, ?_, ?_⟩
        · intro b hb
          rcases List.mem_cons.mp hb with hb | hb
          · simpa [hb] using hy
          · exact hpre b hb
        · rw [← h.1, hl0]
          simp
        · rw [← h.2, ha0]

theorem objMerge_cons (o : JObj) (kv : String × Value) (rest : JObj) :
    objMerge o (kv :: rest) = objMerge (objSet o kv.1 kv.2) rest := rfl

theorem objMerge_append (o : JObj) (l1 l2 : JObj) :
    objMerge o (l1 ++ l2) = objMerge (objMerge o l1) l2 := by
  unfold objMerge
  exact List.foldl_append _ _ _ _

theorem jget_objMerge_of_none (o fields : JObj) (k : String) (h : jget fields k = none) :
    jget (objMerge o fields) k = jget o k := by
  induction fields generalizing o with
  | nil => simp [objMerge]
  | cons kv rest ih =>
    have hk : kv.1 ≠ k := by
      rw [jget_eq_none_iff] at h
      exact h kv (by simp)
    have hrest : jget rest k = none := by
      rw [jget_eq_none_iff] at h ⊢
      exact fun kv' h' => h kv' (by simp [h'])
    rw [objMerge_cons, ih _ hrest, jget_objSet_ne _ _ _ _ (Ne.symm hk)]

theorem jget_httpAckUpdate_acknowledged (t : Nat) (a : JObj) :
    jget (httpAckUpdate t a) "acknowledged" = some (Value.vbool true) := by
  unfold httpAckUpdate
  rw [jget_objSet_ne _ _ _ _ (by decide), jget_objSet_self]

theorem jget_httpAckUpdate_at (t : Nat) (a : JObj) :
    jget (httpAckUpdate t a) "acknowledgedAt" = some (Value.vtime t) :=
  jget_objSet_self _ _ _

theorem jget_httpAckUpdate_id (t : Nat) (a : JObj) :
    jget (httpAckUpdate t a) "id" = jget a "id" := by
  unfold httpAckUpdate
  rw [jget_objSet_ne _ _ _ _ (by decide), jget_objSet_ne _ _ _ _ (by decide)]

theorem ackMatches_httpAckUpdate (aid : String) (t : Nat) (a : JObj) :
    ackMatches aid (httpAckUpdate t a) = ackMatches aid a := by
  unfold ackMatches
  rw [jget_httpAckUpdate_id]

theorem httpAckUpdate_httpAckUpdate (t1 t2 : Nat) (a : JObj) :
    httpAckUpdate t2 (httpAckUpdate t1 a) = httpAckUpdate t2 a := by
  unfold httpAckUpdate
  have h1 : jget (objSet (objSet a "acknowledged" (Value.vbool true)) "acknowledgedAt"
      (Value.vtime t1)) "acknowledged" = some (Value.vbool true) := by
    rw [jget_objSet_ne _ _ _ _ (by decide), jget_objSet_self]
  rw [objSet_self_of_jget _ _ _ h1, objSet_objSet_self]

theorem jget_socketAckUpdate_acknowledged (a : JObj) :
    jget (socketAckUpdate a) "acknowledged" = some (Value.vbool true) :=
  jget_objSet_self _ _ _

theorem jget_socketAckUpdate_at (a : JObj) :
    jget (socketAckUpdate a) "acknowledgedAt" = jget a "acknowledgedAt" :=
  jget_objSet_ne _ _ _ _ (by decide)

theorem httpAcknowledge_of_no_match (aid : String) (t : Nat) (d : Dashboard)
    (h : ∀ b ∈ d.alerts, ackMatches aid b = false) :
    httpAcknowledge aid t d = (d, AckResponse.notFound) := by
  unfold httpAcknowledge
  rw [(ackFirst_eq_none_iff _ aid d.alerts).mpr h]

theorem httpAcknowledge_found (aid : String) (t : Nat) (d : Dashboard)
    (pre : List JObj) (x : JObj) (post : List JObj)
    (hd : d.alerts = pre ++ x :: post) (hpre : ∀ b ∈ pre, ackMatches aid b = false)
    (hx : ackMatches aid x = true) :
    httpAcknowledge aid t d =
      ({ d with alerts := pre ++ httpAckUpdate t x :: post },
        AckResponse.success (httpAckUpdate t x)) := by
  unfold httpAcknowledge
  rw [hd, ackFirst_append_first_match _ _ _ _ _ hpre hx]

theorem socketAcknowledge_of_no_match (aid : String) (d : Dashboard)
    (h : ∀ b ∈ d.alerts, ackMatches aid b = false) :
    socketAcknowledge aid d = (d, []) := by
  unfold socketAcknowledge
  rw [(ackFirst_eq_none_iff _ aid d.alerts).mpr h]

theorem socketAcknowledge_found (aid : String) (d : Dashboard)
    (pre : List JObj) (x : JObj) (post : List JObj)
    (hd : d.alerts = pre ++ x :: post) (hpre : ∀ b ∈ pre, ackMatches aid b = false)
    (hx : ackMatches aid x = true) :
    socketAcknowledge aid d =
      ({ d with alerts := pre ++ socketAckUpdate x :: post },
        [Event.alertAcknowledged aid]) := by
  unfold socketAcknowledge
  rw [hd, ackFirst_append_first_match _ _ _ _ _ hpre hx]

/-- The acknowledgment timestamp carried by an acknowledge response. -/
def ackStamp (r : AckResponse) : Option Value :=
  match r with
  | AckResponse.success a => jget a "acknowledgedAt"
  | AckResponse.notFound => none

/-- Counterexample to claim C3 as stated: from a fresh state, ingest
one alert at clock 1, acknowledge it over HTTP at clock 2 and again at
clock 3.  The second call still succeeds, but it re-records the
acknowledgment timestamp at clock 3 instead of preserving the value
recorded at clock 2, because the route unconditionally assigns
`acknowledgedAt = new Date()` without checking the current flag. -/
theorem http_ack_second_changes_timestamp :
    ackStamp (httpAcknowledge "alert_1" 2
        (handleEmergencyAlert [("severity", Value.vstr "HIGH")] 1 (initialDashboard 0)).1).2
      = some (Value.vtime 2)
    ∧ ackStamp (httpAcknowledge "alert_1" 3
        (httpAcknowledge "alert_1" 2
          (handleEmergencyAlert [("severity", Value.vstr "HIGH")] 1 (initialDashboard 0)).1).1).2
      = some (Value.vtime 3)
    ∧ (some (Value.vtime 3) : Option Value) ≠ some (Value.vtime 2) := by
  refine ⟨rfl, rfl, ?_⟩
  intro h
  injection h with h
  injection h with h
  exact absurd h (by decide)

/-- Claim C3 (amended).  Acknowledging an existing alert over HTTP
succeeds, sets `acknowledged` to true and records the acknowledgment
timestamp; a second acknowledgment of the same id succeeds again and
keeps `acknowledged = true`, but it re-records the acknowledgment
timestamp at the clock value of the second call (so the result equals
the first response only when both calls read the same clock value)
rather than preserving the first timestamp. -/
theorem http_ack_idempotent_overwrites_timestamp (aid : String) (t1 t2 : Nat)
    (d : Dashboard) (pre : List JObj) (x : JObj) (post : List JObj)
    (hd : d.alerts = pre ++ x :: post)
    (hpre : ∀ b ∈ pre, ackMatches aid b = false) (hx : ackMatches aid x = true) :
    httpAcknowledge aid t1 d
        = ({ d with alerts := pre ++ httpAckUpdate t1 x :: post },
            AckResponse.success (httpAckUpdate t1 x))
    ∧ httpAcknowledge aid t2 (httpAcknowledge aid t1 d).1
        = ({ d with alerts := pre ++ httpAckUpdate t2 x :: post },
            AckResponse.success (httpAckUpdate t2 x))
    ∧ jget (httpAckUpdate t1 x) "acknowledged" = some (Value.vbool true)
    ∧ jget (httpAckUpdate t2 x) "acknowledged" = some (Value.vbool true)
    ∧ jget (httpAckUpdate t1 x) "acknowledgedAt" = some (Value.vtime t1)
    ∧ jget (httpAckUpdate t2 x) "acknowledgedAt" = some (Value.vtime t2) := by
  have hfirst := httpAcknowledge_found aid t1 d pre x post hd hpre hx
  have hd1 : (httpAcknowledge aid t1 d).1.alerts = pre ++ httpAckUpdate t1 x :: post := by
    rw [hfirst]
  have hsecond := httpAcknowledge_found aid t2 (httpAcknowledge aid t1 d).1
    pre (httpAckUpdate t1 x) post hd1 hpre
    (by rw [ackMatches_httpAckUpdate]; exact hx)
  rw [httpAckUpdate_httpAckUpdate] at hsecond
  have hproj : (httpAcknowledge aid t1 d).1
      = { d with alerts := pre ++ httpAckUpdate t1 x :: post } := by
    rw [hfirst]
  refine ⟨hfirst, ?_, jget_httpAckUpdate_acknowledged t1 x,
    jget_httpAckUpdate_acknowledged t2 x, jget_httpAckUpdate_at t1 x,
    jget_httpAckUpdate_at t2 x⟩
  rw [hsecond, hproj]

/-- Witness for the amended C3 at a concrete one-alert state. -/
theorem http_ack_idempotent_overwrites_timestamp_witness :
    httpAcknowledge "alert_1" 2 (handleEmergencyAlert [] 1 (initialDashboard 0)).1
        = ({ (handleEmergencyAlert [] 1 (initialDashboard 0)).1 with
              alerts := [] ++ httpAckUpdate 2 (mkAlert [] 1) :: [] },
            AckResponse.success (httpAckUpdate 2 (mkAlert [] 1)))
    ∧ httpAcknowledge "alert_1" 3
          (httpAcknowledge "alert_1" 2 (handleEmergencyAlert [] 1 (initialDashboard 0)).1).1
        = ({ (handleEmergencyAlert [] 1 (initialDashboard 0)).1 with
              alerts := [] ++ httpAckUpdate 3 (mkAlert [] 1) :: [] },
            AckResponse.success (httpAckUpdate 3 (mkAlert [] 1)))
    ∧ jget (httpAckUpdate 2 (mkAlert [] 1)) "acknowledged" = some (Value.vbool true)
    ∧ jget (httpAckUpdate 3 (mkAlert [] 1)) "acknowledged" = some (Value.vbool true)
    ∧ jget (httpAckUpdate 2 (mkAlert [] 1)) "acknowledgedAt" = some (Value.vtime 2)
    ∧ jget (httpAckUpdate 3 (mkAlert [] 1)) "acknowledgedAt" = some (Value.vtime 3) :=
  http_ack_idempotent_overwrites_timestamp "alert_1" 2 3
    (handleEmergencyAlert [] 1 (initialDashboard 0)).1 [] (mkAlert [] 1) []
    rfl (by simp) (by decide)

/-- Claim C4.  An HTTP acknowledgment naming an id that matches no
stored alert answers the not-found error and leaves the state exactly
as it was; naming a present id succeeds, mutates exactly the first
matching alert, and returns that updated record (now acknowledged,
with the acknowledgment timestamp set). -/
theorem http_ack_not_found_and_found (aid : String) (t : Nat) (d : Dashboard) :
    ((∀ b ∈ d.alerts, ackMatches aid b = false) →
      httpAcknowledge aid t d = (d, AckResponse.notFound))
    ∧ (∀ pre x post, d.alerts = pre ++ x :: post →
        (∀ b ∈ pre, ackMatches aid b = false) → ackMatches aid x = true →
        httpAcknowledge aid t d
          = ({ d with alerts := pre ++ httpAckUpdate t x :: post },
              AckResponse.success (httpAckUpdate t x))
        ∧ jget (httpAckUpdate t x) "acknowledged" = some (Value.vbool true)
        ∧ jget (httpAckUpdate t x) "acknowledgedAt" = some (Value.vtime t)) := by
  refine ⟨httpAcknowledge_of_no_match aid t d, ?_⟩
  intro pre x post hd hpre hx
  exact ⟨httpAcknowledge_found aid t d pre x post hd hpre hx,
    jget_httpAckUpdate_acknowledged t x, jget_httpAckUpdate_at t x⟩

/-- Witness for C4: both branches exercised at a concrete one-alert
state. -/
theorem http_ack_not_found_and_found_witness :
    httpAcknowledge "missing" 7 (handleEmergencyAlert [] 1 (initialDashboard 0)).1
      = ((handleEmergencyAlert [] 1 (initialDashboard 0)).1, AckResponse.notFound)
    ∧ httpAcknowledge "alert_1" 7 (handleEmergencyAlert [] 1 (initialDashboard 0)).1
      = ({ (handleEmergencyAlert [] 1 (initialDashboard 0)).1 with
            alerts := [] ++ httpAckUpdate 7 (mkAlert [] 1) :: [] },
          AckResponse.success (httpAckUpdate 7 (mkAlert [] 1))) :=
  ⟨(http_ack_not_found_and_found "missing" 7
      (handleEmergencyAlert [] 1 (initialDashboard 0)).1).1 (by decide),
   ((http_ack_not_found_and_found "alert_1" 7
      (handleEmergencyAlert [] 1 (initialDashboard 0)).1).2
      [] (mkAlert [] 1) [] rfl (by simp) (by decide)).1⟩

/-- Claim C10.  The socket acknowledgment path, on a hit, sets only
`acknowledged = true` on the first matching alert, leaves the
`acknowledgedAt` field exactly as it was (in particular still absent
when it was never set, unlike the HTTP path), and broadcasts one
`alertAcknowledged` event carrying only the id; on a miss it changes
no state and emits nothing. -/
theorem socket_ack_no_timestamp_broadcast (aid : String) (d : Dashboard) :
    ((∀ b ∈ d.alerts, ackMatches aid b = false) → socketAcknowledge aid d = (d, []))
    ∧ (∀ pre x post, d.alerts = pre ++ x :: post →
        (∀ b ∈ pre, ackMatches aid b = false) → ackMatches aid x = true →
        socketAcknowledge aid d
          = ({ d with alerts := pre ++ socketAckUpdate x :: post },
              [Event.alertAcknowledged aid])
        ∧ jget (socketAckUpdate x) "acknowledged" = some (Value.vbool true)
        ∧ jget (socketAckUpdate x) "acknowledgedAt" = jget x "acknowledgedAt") := by
  refine ⟨socketAcknowledge_of_no_match aid d, ?_⟩
  intro pre x post hd hpre hx
  exact ⟨socketAcknowledge_found aid d pre x post hd hpre hx,
    jget_socketAckUpdate_acknowledged x, jget_socketAckUpdate_at x⟩

/-- Witness for C10: both branches exercised at a concrete one-alert
state. -/
theorem socket_ack_no_timestamp_broadcast_witness :
    socketAcknowledge "missing" (handleEmergencyAlert [] 1 (initialDashboard 0)).1
      = ((handleEmergencyAlert [] 1 (initialDashboard 0)).1, [])
    ∧ socketAcknowledge "alert_1" (handleEmergencyAlert [] 1 (initialDashboard 0)).1
      = ({ (handleEmergencyAlert [] 1 (initialDashboard 0)).1 with
            alerts := [] ++ socketAckUpdate (mkAlert [] 1) :: [] },
          [Event.alertAcknowledged "alert_1"]) :=
  ⟨(socket_ack_no_timestamp_broadcast "missing"
      (handleEmergencyAlert [] 1 (initialDashboard 0)).1).1 (by decide),
   ((socket_ack_no_timestamp_broadcast "alert_1"
      (handleEmergencyAlert [] 1 (initialDashboard 0)).1).2
      [] (mkAlert [] 1) [] rfl (by simp) (by decide)).1⟩

/-! Decode failures and per-message fan-out. -/

/-- Claim C5.  A message whose payload fails to decode, on any of the
four topics, leaves the state untouched, emits no event, logs one
error line, and the processing of any subsequent message from the
resulting state is identical to processing it from the original
state. -/
theorem decode_failure_no_effect (topic : Topic) (t : Nat) (d : Dashboard) :
    onMessage topic none t d
      = (d, [], ["Error processing MQTT message from " ++ topicName topic])
    ∧ (∀ (topic2 : Topic) (payload2 : Option JObj) (t2 : Nat),
        onMessage topic2 payload2 t2 (onMessage topic none t d).1
          = onMessage topic2 payload2 t2 d) :=
  ⟨rfl, fun _ _ _ => rfl⟩

theorem objMerge_single (o : JObj) (k : String) (v : Value) :
    objMerge o [(k, v)] = objSet o k v := rfl

theorem jget_mkAlert_acknowledged (data : JObj) (t : Nat) :
    jget (mkAlert data t) "acknowledged" = some (Value.vbool false) := by
  unfold mkAlert objLit
  have hsplit : data ++ [("timestamp", Value.vtime t), ("acknowledged", Value.vbool false)]
      = (data ++ [("timestamp", Value.vtime t)]) ++ [("acknowledged", Value.vbool false)] := by
    simp
  rw [objMerge_cons, hsplit, objMerge_append, objMerge_single]
  exact jget_objSet_self _ _ _

theorem jget_mkAlert_id (data : JObj) (t : Nat) (h : jget data "id" = none) :
    jget (mkAlert data t) "id" = some (Value.vstr (alertId t)) := by
  unfold mkAlert objLit
  have hsplit : data ++ [("timestamp", Value.vtime t), ("acknowledged", Value.vbool false)]
      = (data ++ [("timestamp", Value.vtime t)]) ++ [("acknowledged", Value.vbool false)] := by
    simp
  rw [objMerge_cons, hsplit, objMerge_append, objMerge_single,
    jget_objSet_ne _ _ _ _ (by decide), objMerge_append, objMerge_single,
    jget_objSet_ne _ _ _ _ (by decide), jget_objMerge_of_none _ _ _ h]
  exact jget_objSet_self _ _ _

/-- Counterexample to claim C6 as stated: a decoded alert payload that
itself carries an `id` field.  The broadcast `newAlert` record then
carries the payload id, not the freshly assigned clock-derived id,
because the object literal spreads `...data` after its `id` field and
a payload `id` overwrites it. -/
theorem newalert_id_not_fresh :
    (onMessage Topic.alertasEmergentes (some [("id", Value.vstr "spoofed")]) 7
        (initialDashboard 0)).2.1.head?
      = some (Event.newAlert (mkAlert [("id", Value.vstr "spoofed")] 7))
    ∧ jget (mkAlert [("id", Value.vstr "spoofed")] 7) "id" = some (Value.vstr "spoofed")
    ∧ alertId 7 = "alert_7"
    ∧ ("spoofed" : String) ≠ "alert_7" :=
  ⟨rfl, rfl, rfl, by decide⟩

/-- Claim C6 (amended).  Every successfully decoded message produces
exactly one `dataUpdate` fan-out event carrying the topic, the decoded
payload and the timestamp, whatever the topic; an alert ingestion
additionally produces exactly one `newAlert` broadcast (emitted before
the `dataUpdate`) carrying the stored alert record, which always has
`acknowledged = false` and which carries the freshly assigned
clock-derived id provided the payload does not itself contain an `id`
field (a payload `id` field overrides the assigned one). -/
theorem fanout_events_per_message (topic : Topic) (data : JObj) (t : Nat) (d : Dashboard) :
    (onMessage topic (some data) t d).2.1
      = (if topic = Topic.alertasEmergentes then [Event.newAlert (mkAlert data t)] else [])
        ++ [Event.dataUpdate topic data t]
    ∧ jget (mkAlert data t) "acknowledged" = some (Value.vbool false)
    ∧ (jget data "id" = none →
        jget (mkAlert data t) "id" = some (Value.vstr (alertId t))) := by
  refine ⟨?_, jget_mkAlert_acknowledged data t, fun h => jget_mkAlert_id data t h⟩
  cases topic <;> simp [onMessage, handleEmergencyAlert]

/-- Witness for the amended C6 at a concrete critical alert. -/
theorem fanout_events_per_message_witness :
    (onMessage Topic.alertasEmergentes (some [("severity", Value.vstr "CRITICAL")]) 4
        (initialDashboard 0)).2.1
      = (if Topic.alertasEmergentes = Topic.alertasEmergentes then
          [Event.newAlert (mkAlert [("severity", Value.vstr "CRITICAL")] 4)] else [])
        ++ [Event.dataUpdate Topic.alertasEmergentes [("severity", Value.vstr "CRITICAL")] 4]
    ∧ jget (mkAlert [("severity", Value.vstr "CRITICAL")] 4) "acknowledged"
        = some (Value.vbool false)
    ∧ jget (mkAlert [("severity", Value.vstr "CRITICAL")] 4) "id"
        = some (Value.vstr (alertId 4)) :=
  ⟨(fanout_events_per_message Topic.alertasEmergentes
      [("severity", Value.vstr "CRITICAL")] 4 (initialDashboard 0)).1,
   (fanout_events_per_message Topic.alertasEmergentes
      [("severity", Value.vstr "CRITICAL")] 4 (initialDashboard 0)).2.1,
   (fanout_events_per_message Topic.alertasEmergentes
      [("severity", Value.vstr "CRITICAL")] 4 (initialDashboard 0)).2.2 rfl⟩

/-! Statistics counters over arbitrary operation sequences. -/

/-- Whether one operation is an alert ingestion (counts toward
`totalAlerts`). -/
def opTotalCount : Op → Nat
  | Op.msg Topic.alertasEmergentes (some _) _ => 1
  | _ => 0

/-- Whether one operation is an alert ingestion with a critical
severity (counts toward `criticalAlerts`). -/
def opCriticalCount : Op → Nat
  | Op.msg Topic.alertasEmergentes (some data) _ => if isCriticalPayload data then 1 else 0
  | _ => 0

/-- The number of alert-ingestion events in an operation sequence. -/
def totalAlertEvents (ops : List Op) : Nat := (ops.map opTotalCount).sum

/-- The number of critical alert-ingestion events in an operation
sequence. -/
def criticalAlertEvents (ops : List Op) : Nat := (ops.map opCriticalCount).sum

theorem httpAcknowledge_statistics (aid : String) (t : Nat) (d : Dashboard) :
    (httpAcknowledge aid t d).1.statistics = d.statistics := by
  unfold httpAcknowledge
  cases hm : ackFirst (httpAckUpdate t) aid d.alerts with
  | none => rfl
  | some p => obtain ⟨l, a⟩ := p; rfl

theorem socketAcknowledge_statistics (aid : String) (d : Dashboard) :
    (socketAcknowledge aid d).1.statistics = d.statistics := by
  unfold socketAcknowledge
  cases hm : ackFirst socketAckUpdate aid d.alerts with
  | none => rfl
  | some p => rfl

theorem applyOp_statistics (op : Op) (d : Dashboard) :
    (applyOp op d).statistics.totalAlerts = d.statistics.totalAlerts + opTotalCount op
    ∧ (applyOp op d).statistics.criticalAlerts
        = d.statistics.criticalAlerts + opCriticalCount op := by
  cases op with
  | msg topic payload t =>
    cases payload with
    | none => cases topic <;> simp [applyOp, onMessage, opTotalCount, opCriticalCount]
    | some data =>
      cases topic with
      | sensoresRaw =>
        simp [applyOp, onMessage, handleSensorData, opTotalCount, opCriticalCount]
      | alertasEmergentes =>
        refine ⟨?_, ?_⟩
        · simpa [applyOp, onMessage, opTotalCount]
            using handleEmergencyAlert_totalAlerts data t d
        · simpa [applyOp, onMessage, opCriticalCount]
            using handleEmergencyAlert_criticalAlerts data t d
      | predicciones =>
        simp [applyOp, onMessage, handlePredictionData, opTotalCount, opCriticalCount]
      | anomalias =>
        simp [applyOp, onMessage, handleAnomalyData, opTotalCount, opCriticalCount]
  | httpAck aid t =>
    rw [show applyOp (Op.httpAck aid t) d = (httpAcknowledge aid t d).1 from rfl,
      httpAcknowledge_statistics]
    simp [opTotalCount, opCriticalCount]
  | socketAck aid =>
    rw [show applyOp (Op.socketAck aid) d = (socketAcknowledge aid d).1 from rfl,
      socketAcknowledge_statistics]
    simp [opTotalCount, opCriticalCount]
  | readOp => simp [applyOp, opTotalCount, opCriticalCount]

theorem runOps_cons (op : Op) (ops : List Op) (d : Dashboard) :
    runOps (op :: ops) d = runOps ops (applyOp op d) := rfl

theorem runOps_statistics (ops : List Op) :
    ∀ d : Dashboard,
    (runOps ops d).statistics.totalAlerts
        = d.statistics.totalAlerts + totalAlertEvents ops
    ∧ (runOps ops d).statistics.criticalAlerts
        = d.statistics.criticalAlerts + criticalAlertEvents ops := by
  induction ops with
  | nil => intro d; simp [runOps, totalAlertEvents, criticalAlertEvents]
  | cons op ops ih =>
    intro d
    obtain ⟨hstep1, hstep2⟩ := applyOp_statistics op d
    obtain ⟨hih1, hih2⟩ := ih (applyOp op d)
    constructor
    · rw [runOps_cons, hih1, hstep1, totalAlertEvents, totalAlertEvents,
        List.map_cons, List.sum_cons]
      omega
    · rw [runOps_cons, hih2, hstep2, criticalAlertEvents, criticalAlertEvents,
        List.map_cons, List.sum_cons]
      omega

theorem criticalAlertEvents_le_totalAlertEvents (ops : List Op) :
    criticalAlertEvents ops ≤ totalAlertEvents ops := by
  induction ops with
  | nil => simp [criticalAlertEvents, totalAlertEvents]
  | cons op ops ih =>
    have hop : opCriticalCount op ≤ opTotalCount op := by
      cases op with
      | msg topic payload t =>
        cases payload with
        | none => cases topic <;> simp [opCriticalCount, opTotalCount]
        | some data =>
          cases topic <;> simp [opCriticalCount, opTotalCount] <;>
            by_cases hc : isCriticalPayload data <;> simp [hc]
      | httpAck aid t => simp [opCriticalCount, opTotalCount]
      | socketAck aid => simp [opCriticalCount, opTotalCount]
      | readOp => simp [opCriticalCount, opTotalCount]
    rw [criticalAlertEvents, totalAlertEvents, List.map_cons, List.map_cons,
      List.sum_cons, List.sum_cons]
    have h1 : (ops.map opCriticalCount).sum ≤ (ops.map opTotalCount).sum := ih
    omega

/-- Claim C7.  Starting from process start and running any sequence of
operations (so the property holds at all times, whatever is
interleaved), `criticalAlerts` equals exactly the number of ingested
alerts whose severity field equals the string CRITICAL, independent of
any list truncation, `totalAlerts` equals the number of
alert-ingestion events, and `criticalAlerts` never exceeds
`totalAlerts`. -/
theorem critical_counter_exact (t0 : Nat) (ops : List Op) :
    (runOps ops (initialDashboard t0)).statistics.criticalAlerts = criticalAlertEvents ops
    ∧ (runOps ops (initialDashboard t0)).statistics.totalAlerts = totalAlertEvents ops
    ∧ (runOps ops (initialDashboard t0)).statistics.criticalAlerts
        ≤ (runOps ops (initialDashboard t0)).statistics.totalAlerts := by
  obtain ⟨h1, h2⟩ := runOps_statistics ops (initialDashboard t0)
  have hc : (runOps ops (initialDashboard t0)).statistics.criticalAlerts
      = criticalAlertEvents ops := by
    simpa [initialDashboard] using h2
  have ht : (runOps ops (initialDashboard t0)).statistics.totalAlerts
      = totalAlertEvents ops := by
    simpa [initialDashboard] using h1
  refine ⟨hc, ht, ?_⟩
  rw [hc, ht]
  exact criticalAlertEvents_le_totalAlertEvents ops

/-! No operation un-acknowledges an alert. -/

theorem handleEmergencyAlert_alerts_ite (data : JObj) (t : Nat) (d : Dashboard) :
    (handleEmergencyAlert data t d).1.alerts
      = if 50 < (mkAlert data t :: d.alerts).length then
          (mkAlert data t :: d.alerts).take 50
        else mkAlert data t :: d.alerts := by
  simp only [handleEmergencyAlert]

/-- Claim C8.  For every operation (message ingestion, HTTP
acknowledgment, socket acknowledgment, or a read), every alert present
in the resulting state is either an alert of the previous state kept
bit-for-bit, or an alert whose `acknowledged` flag now reads true (the
only in-place mutations are the two acknowledge updates, which set the
flag to true), or the alert freshly created by this very ingestion
(born with `acknowledged = false`).  In particular no operation ever
turns an acknowledged alert back into an unacknowledged one: there is
no un-acknowledge transition. -/
theorem acknowledged_never_reverts (op : Op) (d : Dashboard) (a : JObj)
    (ha : a ∈ (applyOp op d).alerts) :
    a ∈ d.alerts
    ∨ jget a "acknowledged" = some (Value.vbool true)
    ∨ (∃ data t, op = Op.msg Topic.alertasEmergentes (some data) t ∧ a = mkAlert data t) := by
  cases op with
  | msg topic payload t =>
    cases payload with
    | none =>
      left
      simpa [applyOp, onMessage] using ha
    | some data =>
      cases topic with
      | sensoresRaw =>
        left
        simpa [applyOp, onMessage, handleSensorData] using ha
      | alertasEmergentes =>
        have halerts : (applyOp (Op.msg Topic.alertasEmergentes (some data) t) d).alerts
            = (handleEmergencyAlert data t d).1.alerts := rfl
        rw [halerts, handleEmergencyAlert_alerts_ite] at ha
        have ha' : a ∈ mkAlert data t :: d.alerts := by
          by_cases h5 : 50 < (mkAlert data t :: d.alerts).length
          · rw [if_pos h5] at ha
            exact List.mem_of_mem_take ha
          · rw [if_neg h5] at ha
            exact ha
        rcases List.mem_cons.mp ha' with rfl | hmem
        · right; right; exact ⟨data, t, rfl, rfl⟩
        · left; exact hmem
      | predicciones =>
        left
        simpa [applyOp, onMessage, handlePredictionData] using ha
      | anomalias =>
        left
        simpa [applyOp, onMessage, handleAnomalyData] using ha
  | httpAck aid t =>
    have happ : applyOp (Op.httpAck aid t) d = (httpAcknowledge aid t d).1 := rfl
    rw [happ] at ha
    unfold httpAcknowledge at ha
    cases hm : ackFirst (httpAckUpdate t) aid d.alerts with
    | none =>
      rw [hm] at ha
      left
      exact ha
    | some p =>
      obtain ⟨l, x'⟩ := p
      rw [hm] at ha
      obtain ⟨pre, x, post, hdl, hx, hpre, hl, hx'⟩ := ackFirst_eq_some _ _ _ l x' hm
      simp only [hl] at ha
      rcases List.mem_append.mp ha with hmem | hmem
      · left
        rw [hdl]
        exact List.mem_append.mpr (Or.inl hmem)
      · rcases List.mem_cons.mp hmem with rfl | hmem
        · right; left
          exact jget_httpAckUpdate_acknowledged t x
        · left
          rw [hdl]
          exact List.mem_append.mpr (Or.inr (List.mem_cons.mpr (Or.inr hmem)))
  | socketAck aid =>
    have happ : applyOp (Op.socketAck aid) d = (socketAcknowledge aid d).1 := rfl
    rw [happ] at ha
    unfold socketAcknowledge at ha
    cases hm : ackFirst socketAckUpdate aid d.alerts with
    | none =>
      rw [hm] at ha
      left
      exact ha
    | some p =>
      obtain ⟨l, x'⟩ := p
      rw [hm] at ha
      obtain ⟨pre, x, post, hdl, hx, hpre, hl, hx'⟩ := ackFirst_eq_some _ _ _ l x' hm
      simp only [hl] at ha
      rcases List.mem_append.mp ha with hmem | hmem
      · left
        rw [hdl]
        exact List.mem_append.mpr (Or.inl hmem)
      · rcases List.mem_cons.mp hmem with rfl | hmem
        · right; left
          exact jget_socketAckUpdate_acknowledged x
        · left
          rw [hdl]
          exact List.mem_append.mpr (Or.inr (List.mem_cons.mpr (Or.inr hmem)))
  | readOp =>
    left
    simpa [applyOp] using ha

/-- Witness for C8: the socket acknowledgment of a concrete one-alert
state, applied to the mutated alert found in the new state. -/
theorem acknowledged_never_reverts_witness :
    socketAckUpdate (mkAlert [] 1) ∈ (handleEmergencyAlert [] 1 (initialDashboard 0)).1.alerts
    ∨ jget (socketAckUpdate (mkAlert [] 1)) "acknowledged" = some (Value.vbool true)
    ∨ (∃ data t, Op.socketAck "alert_1" = Op.msg Topic.alertasEmergentes (some data) t
        ∧ socketAckUpdate (mkAlert [] 1) = mkAlert data t) :=
  acknowledged_never_reverts (Op.socketAck "alert_1")
    (handleEmergencyAlert [] 1 (initialDashboard 0)).1
    (socketAckUpdate (mkAlert [] 1))
    (by
      have h : (applyOp (Op.socketAck "alert_1")
          (handleEmergencyAlert [] 1 (initialDashboard 0)).1).alerts
          = [socketAckUpdate (mkAlert [] 1)] := rfl
      rw [h]
      exact List.mem_singleton.mpr rfl)

/-! Same-millisecond clock collisions. -/

theorem jget_append_of_none (o o2 : JObj) (k : String) (h : jget o k = none) :
    jget (o ++ o2) k = jget o2 k := by
  induction o with
  | nil => simp
  | cons kv rest ih =>
    rw [jget_eq_none_iff] at h
    have h1 : kv.1 ≠ k := h kv (by simp)
    have h2 : jget rest k = none :=
      (jget_eq_none_iff rest k).mpr fun kv' h' => h kv' (by simp [h'])
    simp [jget, h1, ih h2]

theorem objSet_append_last (o : JObj) (k : String) (v1 v2 : Value)
    (h : jget o k = none) :
    objSet (o ++ [(k, v1)]) k v2 = o ++ [(k, v2)] := by
  induction o with
  | nil => simp [objSet]
  | cons kv rest ih =>
    rw [jget_eq_none_iff] at h
    have h1 : kv.1 ≠ k := h kv (by simp)
    have h2 : jget rest k = none :=
      (jget_eq_none_iff rest k).mpr fun kv' h' => h kv' (by simp [h'])
    simp [objSet, h1, ih h2]

theorem jget_tail_none (o : JObj) (k : String) (h : jget o k = none) :
    jget o.tail k = none := by
  rw [jget_eq_none_iff] at h ⊢
  exact fun kv hkv => h kv (List.mem_of_mem_tail hkv)

theorem Dashboard_ext (a b : Dashboard) (h1 : a.sensors = b.sensors)
    (h2 : a.alerts = b.alerts) (h3 : a.predictions = b.predictions)
    (h4 : a.systemStatus = b.systemStatus) (h5 : a.statistics = b.statistics) :
    a = b := by
  cases a
  cases b
  simp_all

theorem handleSensorData_sensors_overwrite (data : JObj) (t : Nat) (d : Dashboard)
    (w : Value) (h : jget d.sensors (sensorId t) = some w)
    (hlen : d.sensors.length ≤ 100) :
    (handleSensorData data t d).sensors
      = objSet d.sensors (sensorId t) (Value.vobj (sensorRecord data t)) := by
  simp only [handleSensorData]
  have hnot : ¬ 100 < (objKeys (objSet d.sensors (sensorId t)
      (Value.vobj (sensorRecord data t)))).length := by
    simp only [objKeys, List.length_map]
    rw [length_objSet_of_jget _ _ _ w h]
    omega
  rw [if_neg hnot]

theorem sensors_double_ingest_same_tick (d1 d2 : JObj) (t : Nat) (s : Dashboard)
    (hlen : s.sensors.length ≤ 100) :
    handleSensorData d2 t (handleSensorData d1 t s) = handleSensorData d2 t s := by
  refine Dashboard_ext _ _ ?_ rfl rfl rfl rfl
  cases hk : jget s.sensors (sensorId t) with
  | some w =>
    have hL1 := handleSensorData_sensors_overwrite d1 t s w hk hlen
    have hlen1 : (handleSensorData d1 t s).sensors.length ≤ 100 := by
      rw [hL1, length_objSet_of_jget _ _ _ w hk]
      exact hlen
    have hk1 : jget (handleSensorData d1 t s).sensors (sensorId t)
        = some (Value.vobj (sensorRecord d1 t)) := by
      rw [hL1]
      exact jget_objSet_self _ _ _
    rw [handleSensorData_sensors_overwrite d2 t _ _ hk1 hlen1, hL1, objSet_objSet_self,
      handleSensorData_sensors_overwrite d2 t s w hk hlen]
  | none =>
    by_cases h99 : s.sensors.length ≤ 99
    · have hL1 := handleSensorData_sensors_push d1 t s hk h99
      have hlen1 : (handleSensorData d1 t s).sensors.length ≤ 100 := by
        rw [hL1]
        simp only [List.length_append, List.length_singleton]
        omega
      have hk1 : jget (handleSensorData d1 t s).sensors (sensorId t)
          = some (Value.vobj (sensorRecord d1 t)) := by
        rw [hL1, jget_append_of_none _ _ _ hk]
        simp [jget]
      rw [handleSensorData_sensors_overwrite d2 t _ _ hk1 hlen1, hL1,
        objSet_append_last _ _ _ _ hk, handleSensorData_sensors_push d2 t s hk h99]
    · have h100 : s.sensors.length = 100 := by omega
      have hL1 := handleSensorData_sensors_evict d1 t s hk h100
      have htail : jget s.sensors.tail (sensorId t) = none := jget_tail_none _ _ hk
      have hlen1 : (handleSensorData d1 t s).sensors.length ≤ 100 := by
        rw [hL1]
        simp only [List.length_append, List.length_singleton, List.length_tail]
        omega
      have hk1 : jget (handleSensorData d1 t s).sensors (sensorId t)
          = some (Value.vobj (sensorRecord d1 t)) := by
        rw [hL1, jget_append_of_none _ _ _ htail]
        simp [jget]
      rw [handleSensorData_sensors_overwrite d2 t _ _ hk1 hlen1, hL1,
        objSet_append_last _ _ _ _ htail, handleSensorData_sensors_evict d2 t s hk h100]

theorem head?_take {α : Type} (n : Nat) (l : List α) (hn : n ≠ 0) :
    (l.take n).head? = l.head? := by
  cases l with
  | nil => simp
  | cons x r =>
    cases n with
    | zero => exact absurd rfl hn
    | succ m => simp

theorem take_cons_tail_head? {α : Type} (n : Nat) (x : α) (l : List α) (hn : 1 < n) :
    ((x :: l).take n).tail.head? = l.head? := by
  cases n with
  | zero => omega
  | succ m =>
    rw [List.take_succ_cons, List.tail_cons]
    exact head?_take m l (by omega)

theorem handleEmergencyAlert_head (data : JObj) (t : Nat) (d : Dashboard) :
    (handleEmergencyAlert data t d).1.alerts.head? = some (mkAlert data t) := by
  rw [handleEmergencyAlert_alerts_ite]
  by_cases h5 : 50 < (mkAlert data t :: d.alerts).length
  · rw [if_pos h5, head?_take 50 _ (by omega)]
    rfl
  · rw [if_neg h5]
    rfl

theorem handleEmergencyAlert_tail_head (data : JObj) (t : Nat) (d : Dashboard) :
    (handleEmergencyAlert data t d).1.alerts.tail.head? = d.alerts.head? := by
  rw [handleEmergencyAlert_alerts_ite]
  by_cases h5 : 50 < (mkAlert data t :: d.alerts).length
  · rw [if_pos h5]
    exact take_cons_tail_head? 50 _ _ (by omega)
  · rw [if_neg h5]
    rfl

theorem ackMatches_mkAlert (data : JObj) (t : Nat) (h : jget data "id" = none) :
    ackMatches (alertId t) (mkAlert data t) = true := by
  unfold ackMatches
  rw [jget_mkAlert_id data t h]
  simp

/-- Claim C9.  Assigned identifiers are derived only from the
millisecond clock, so they collide within one millisecond: a second
sensor reading ingested at the same clock value lands on the same
`sensor_` key and silently replaces the first (the double ingestion
leaves exactly the state of ingesting only the second); two alerts
ingested at the same clock value both carry the same `alert_` id (top
two list entries), so a later acknowledgment naming that id mutates
only the first matching, most recently inserted alert and leaves the
older duplicate untouched.  The payloads are assumed not to carry an
`id` field of their own (which is claim C6), and the sensor store is
within its 100-entry bound. -/
theorem clock_derived_ids_collide (d1 d2 : JObj) (t tck : Nat) (s : Dashboard)
    (h1 : jget d1 "id" = none) (h2 : jget d2 "id" = none)
    (hslen : s.sensors.length ≤ 100) :
    handleSensorData d2 t (handleSensorData d1 t s) = handleSensorData d2 t s
    ∧ jget (mkAlert d1 t) "id" = some (Value.vstr (alertId t))
    ∧ jget (mkAlert d2 t) "id" = some (Value.vstr (alertId t))
    ∧ (handleEmergencyAlert d2 t (handleEmergencyAlert d1 t s).1).1.alerts.head?
        = some (mkAlert d2 t)
    ∧ (handleEmergencyAlert d2 t (handleEmergencyAlert d1 t s).1).1.alerts.tail.head?
        = some (mkAlert d1 t)
    ∧ httpAcknowledge (alertId t) tck
          (handleEmergencyAlert d2 t (handleEmergencyAlert d1 t s).1).1
        = ({ (handleEmergencyAlert d2 t (handleEmergencyAlert d1 t s).1).1 with
              alerts := httpAckUpdate tck (mkAlert d2 t)
                :: (handleEmergencyAlert d2 t (handleEmergencyAlert d1 t s).1).1.alerts.tail },
            AckResponse.success (httpAckUpdate tck (mkAlert d2 t))) := by
  have hhead : (handleEmergencyAlert d2 t (handleEmergencyAlert d1 t s).1).1.alerts.head?
      = some (mkAlert d2 t) := handleEmergencyAlert_head d2 t _
  have htail : (handleEmergencyAlert d2 t (handleEmergencyAlert d1 t s).1).1.alerts.tail.head?
      = some (mkAlert d1 t) := by
    rw [handleEmergencyAlert_tail_head, handleEmergencyAlert_head]
  refine ⟨sensors_double_ingest_same_tick d1 d2 t s hslen,
    jget_mkAlert_id d1 t h1, jget_mkAlert_id d2 t h2, hhead, htail, ?_⟩
  have hshape : (handleEmergencyAlert d2 t (handleEmergencyAlert d1 t s).1).1.alerts
      = mkAlert d2 t
        :: (handleEmergencyAlert d2 t (handleEmergencyAlert d1 t s).1).1.alerts.tail := by
    cases hcase : (handleEmergencyAlert d2 t (handleEmergencyAlert d1 t s).1).1.alerts with
    | nil => rw [hcase] at hhead; simp at hhead
    | cons y r =>
      rw [hcase] at hhead
      simp only [List.head?_cons, Option.some.injEq] at hhead
      rw [List.tail_cons, hhead]
  have := httpAcknowledge_found (alertId t) tck
    (handleEmergencyAlert d2 t (handleEmergencyAlert d1 t s).1).1
    [] (mkAlert d2 t)
    (handleEmergencyAlert d2 t (handleEmergencyAlert d1 t s).1).1.alerts.tail
    (by simpa using hshape) (by simp) (ackMatches_mkAlert d2 t h2)
  simpa using this

/-- Witness for C9 at two empty payloads ingested at clock 5 from the
fresh state, acknowledged at clock 9. -/
theorem clock_derived_ids_collide_witness :
    handleSensorData [] 5 (handleSensorData [] 5 (initialDashboard 0))
        = handleSensorData [] 5 (initialDashboard 0)
    ∧ jget (mkAlert [] 5) "id" = some (Value.vstr (alertId 5))
    ∧ jget (mkAlert [] 5) "id" = some (Value.vstr (alertId 5))
    ∧ (handleEmergencyAlert [] 5 (handleEmergencyAlert [] 5 (initialDashboard 0)).1).1.alerts.head?
        = some (mkAlert [] 5)
    ∧ (handleEmergencyAlert [] 5
          (handleEmergencyAlert [] 5 (initialDashboard 0)).1).1.alerts.tail.head?
        = some (mkAlert [] 5)
    ∧ httpAcknowledge (alertId 5) 9
          (handleEmergencyAlert [] 5 (handleEmergencyAlert [] 5 (initialDashboard 0)).1).1
        = ({ (handleEmergencyAlert [] 5 (handleEmergencyAlert [] 5 (initialDashboard 0)).1).1 with
              alerts := httpAckUpdate 9 (mkAlert [] 5)
                :: (handleEmergencyAlert [] 5
                      (handleEmergencyAlert [] 5 (initialDashboard 0)).1).1.alerts.tail },
            AckResponse.success (httpAckUpdate 9 (mkAlert [] 5))) :=
  clock_derived_ids_collide [] [] 5 9 (initialDashboard 0) rfl rfl (by decide)
